import Mathlib

/-!
# Verification of the computer_talk command-interpretation core

Shallow embedding of `src/computer_talk/core.py` and `src/computer_talk/desktop.py`.

External effects (the configuration store, wall-clock time, `subprocess` calls and
the OS) are modelled as explicit parameters / oracle functions; every embedded
function is total and returns the response value the Python code would return.
Python exceptions are modelled with `Except String`: `Except.error e` stands for a
raised exception whose `str()` is `e`.

Python `str` operations are embedded as executable functions over `List Char`
(`str.lower` is modelled with ASCII case folding, which agrees with CPython on all
inputs relevant here).
-/

namespace ComputerTalk

/-! ## Python string primitives -/

/-- Python `str.lower()` (ASCII case folding). -/
def pyLower (s : String) : String := String.mk (s.toList.map Char.toLower)

/-- List-level prefix test used by `pyStartswith` (Python `str.startswith`). -/
def isPrefixOfL : List Char → List Char → Bool
  | [], _ => true
  | _ :: _, [] => false
  | a :: as, b :: bs => a == b && isPrefixOfL as bs

/-- Python `s.startswith(p)`. -/
def pyStartswith (s p : String) : Bool := isPrefixOfL p.toList s.toList

/-- List-level infix test used by `pyIn` (Python `sub in s`). -/
def isInfixOfL (sub : List Char) : List Char → Bool
  | [] => sub.isEmpty
  | c :: cs => isPrefixOfL sub (c :: cs) || isInfixOfL sub cs

/-- Python `sub in s` (substring containment). -/
def pyIn (sub s : String) : Bool := isInfixOfL sub.toList s.toList

/-- Strip characters satisfying `f` from both ends (core of Python `str.strip`). -/
def stripWithL (f : Char → Bool) (l : List Char) : List Char :=
  ((l.dropWhile f).reverse.dropWhile f).reverse

/-- Python `s.strip()` (strip whitespace from both ends). -/
def pyStrip (s : String) : String := String.mk (stripWithL Char.isWhitespace s.toList)

/-- The quote characters stripped by `.strip("'\"")` in the source. -/
def quoteChars : List Char := ['\'', '"']

/-- Python `s.strip("'\"")`. -/
def stripQuotes (s : String) : String :=
  String.mk (stripWithL (fun c => quoteChars.contains c) s.toList)

/-- Python `s[n:]` (character-based slicing). -/
def pyDrop (n : Nat) (s : String) : String := String.mk (s.toList.drop n)

/-- Index of the first occurrence of `sep` in `l`, if any. -/
def firstOccur (sep : List Char) : List Char → Option Nat
  | [] => if sep.isEmpty then some 0 else none
  | c :: cs => if isPrefixOfL sep (c :: cs) then some 0 else (firstOccur sep cs).map (· + 1)

/-- Python `s.split(sep, 1)` when `sep` occurs in `s`: the pieces before and after
the first occurrence; `none` when `sep` does not occur. -/
def pySplitFirst (sep s : String) : Option (String × String) :=
  match firstOccur sep.toList s.toList with
  | none => none
  | some i => some (String.mk (s.toList.take i), String.mk (s.toList.drop (i + sep.length)))

/-- Worker for `pySplitAll`; the fuel bounds the number of splits. -/
def pySplitAllAux (sep : List Char) : Nat → List Char → List (List Char)
  | 0, l => [l]
  | fuel + 1, l =>
    match firstOccur sep l with
    | none => [l]
    | some i => l.take i :: pySplitAllAux sep fuel (l.drop (i + sep.length))

/-- Python `s.split(sep)` with no `maxsplit`: split at every (non-overlapping,
left-to-right) occurrence of `sep`. -/
def pySplitAll (sep s : String) : List String :=
  (pySplitAllAux sep.toList s.toList.length s.toList).map String.mk

/-- Python `s.capitalize()`: first character upper-cased, the rest lower-cased. -/
def pyCapitalize (s : String) : String :=
  match s.toList with
  | [] => s
  | c :: cs => String.mk (c.toUpper :: cs.map Char.toLower)

/-- Worker for `pyTitle`: upper-case letters that follow a non-letter. -/
def titleAux : List Char → Bool → List Char
  | [], _ => []
  | c :: cs, prevAlpha =>
    (if c.isAlpha then (if prevAlpha then c.toLower else c.toUpper) else c)
      :: titleAux cs c.isAlpha

/-- Python `s.title()` (ASCII). -/
def pyTitle (s : String) : String := String.mk (titleAux s.toList false)

/-- Worker for `pySplitWs`. -/
def wsSplitAux (cur : List Char) : List Char → List (List Char)
  | [] => if cur.isEmpty then [] else [cur.reverse]
  | c :: cs =>
    if c.isWhitespace then
      (if cur.isEmpty then wsSplitAux [] cs else cur.reverse :: wsSplitAux [] cs)
    else wsSplitAux (c :: cur) cs

/-- Python `s.split()` with no argument: split on whitespace runs, no empty parts. -/
def pySplitWs (s : String) : List String := (wsSplitAux [] s.toList).map String.mk

example : pySplitAll "," "a,b,c" = ["a", "b", "c"] := by decide
example : pySplitAll "aa" "aaa" = ["", "a"] := by decide
example : pySplitFirst " that says " "Avery that says hi there" = some ("Avery", "hi there") := by
  decide
example : pyStrip "  hi \t" = "hi" := by decide
example : stripQuotes "'hi there'" = "hi there" := by decide
example : pyLower "Clear Task NOW" = "clear task now" := by decide
example : pyStartswith "clear task now" "clear task" = true := by decide
example : pyIn " and " "open x and do y" = true := by decide
example : pyDrop 6 "close Safari" = "Safari" := by decide
example : pyCapitalize "vsCode" = "Vscode" := by decide
example : pyTitle "vscode" = "Vscode" := by decide
example : pySplitWs "  two words " = ["two", "words"] := by decide

/-! ## Data model

Python result dictionaries are embedded as a record of optional fields, one per
dictionary key that ever appears; an absent key is `none`.  Reading `d["k"]` on an
absent key is a `KeyError`, modelled at each use site; `d.get("k", v)` is `getD v`. -/

/-- Result dictionary shape covering every dict produced by the adapter layer
(`_interact_*`, `open_application`, `close_app`, `_send_message_to_app`). -/
structure PyDict where
  success? : Option Bool := none
  action? : Option String := none
  result? : Option String := none
  error? : Option String := none
  message? : Option String := none
  appId? : Option String := none
  appName? : Option String := none
  pidVal? : Option (Option Nat) := none
  deriving Repr, DecidableEq

/-- One entry of `DesktopManager.running_apps` (spec: *TrackedApp*). -/
structure TrackedApp where
  name : String
  pid : Option Nat
  startedAt : Nat
  status : String
  deriving Repr, DecidableEq

/-- The in-memory registry `DesktopManager.running_apps`: an insertion-ordered
dictionary keyed by app id, embedded as an association list without duplicate-key
creation (`dictInsert` overwrites in place like Python dict assignment). -/
abbrev Registry := List (String × TrackedApp)

/-- Outcome of one `subprocess.run` call (returncode, stdout, stderr). -/
structure ProcResult where
  returncode : Int
  stdout : String
  stderr : String
  deriving Repr, DecidableEq

/-- One entry of the static `get_common_apps` catalog (spec: *AppDescriptor*). -/
structure AppInfo where
  name : String
  description : String
  command : String
  deriving Repr, DecidableEq

/-- One entry returned by `list_running_apps`. -/
structure RunningAppInfo where
  name : String
  system : String
  deriving Repr, DecidableEq

/-- Python dict membership / subscription on the registry. -/
def lookupA : Registry → String → Option TrackedApp
  | [], _ => none
  | (k', v) :: t, k => if k' = k then some v else lookupA t k

/-- Python `running_apps[app_id] = entry`: overwrite in place if the key exists,
otherwise append (insertion order preserved, as for a Python dict). -/
def dictInsert (reg : Registry) (k : String) (v : TrackedApp) : Registry :=
  if (lookupA reg k).isSome then
    reg.map (fun p => if p.1 = k then (p.1, v) else p)
  else reg ++ [(k, v)]

/-- Python `running_apps[app_id]["status"] = st`. -/
def setStatus (reg : Registry) (k : String) (st : String) : Registry :=
  reg.map (fun p => if p.1 = k then (p.1, { p.2 with status := st }) else p)

/-! ## Platform adapter (`desktop.py`) -/

/-- The `actions` AppleScript table of `DesktopManager._interact_macos_app`;
`none` for an action outside the table (Python: `action not in actions`). -/
def macosActionScript (appName action : String) : Option String :=
  if action = "activate" then some ("tell application \"" ++ appName ++ "\" to activate")
  else if action = "close" then some ("tell application \"" ++ appName ++ "\" to close")
  else if action = "quit" then some ("tell application \"" ++ appName ++ "\" to quit")
  else if action = "minimize" then
    some ("tell application \"" ++ appName ++ "\" to set minimized of window 1 to true")
  else if action = "maximize" then
    some ("tell application \"" ++ appName ++ "\" to set zoomed of window 1 to true")
  else none

/-- `DesktopManager._interact_macos_app`.  `run` is the `subprocess.run ["osascript",
"-e", script]` oracle, taking the script text; `run` returning `Except.error e`
models a raised exception (e.g. `TimeoutExpired`), re-raised as
`ComputerTalkError("Failed to execute action ...")`. -/
def interactMacosApp (run : String → Except String ProcResult) (appName action : String) :
    Except String PyDict :=
  match macosActionScript appName action with
  | none => .error ("Unknown action: " ++ action)
  | some script =>
    match run script with
    | .error e => .error ("Failed to execute action " ++ action ++ ": " ++ e)
    | .ok res =>
      if res.returncode = 0 then
        .ok { success? := some true, action? := some action, result? := some (pyStrip res.stdout) }
      else
        .ok { success? := some false, action? := some action, error? := some (pyStrip res.stderr) }

/-- `DesktopManager._interact_windows_app` (best-effort acknowledgment). -/
def interactWindowsApp (appName action : String) : PyDict :=
  { success? := some true, action? := some action,
    message? := some ("Action " ++ action ++ " on " ++ appName ++ " (Windows)") }

/-- `DesktopManager._interact_linux_app` (best-effort acknowledgment). -/
def interactLinuxApp (appName action : String) : PyDict :=
  { success? := some true, action? := some action,
    message? := some ("Action " ++ action ++ " on " ++ appName ++ " (Linux)") }

/-- `DesktopManager.interact_with_app`: per-OS dispatch; any exception from the
per-OS handler (or the unsupported-OS `ComputerTalkError`) is re-raised as
`CommunicationError("Failed to interact with ...")`. -/
def interactWithAppD (system : String) (run : String → Except String ProcResult)
    (appName action : String) : Except String PyDict :=
  let inner : Except String PyDict :=
    if system = "darwin" then interactMacosApp run appName action
    else if system = "windows" then .ok (interactWindowsApp appName action)
    else if system = "linux" then .ok (interactLinuxApp appName action)
    else .error ("Unsupported operating system: " ++ system)
  match inner with
  | .ok r => .ok r
  | .error e => .error ("Failed to interact with " ++ appName ++ ": " ++ e)

/-- `DesktopManager.open_application`.  `launch` is the outcome of the per-OS
`_open_*` helper that actually runs (`Except.ok pid` on success, `Except.error` for
a raised `ComputerTalkError`); `now` is `int(time.time())` at the call (the code
reads the clock twice within the same call; both reads are modelled as `now`).
Any exception, including the unsupported-OS one, is re-raised wrapped. -/
def openApplicationD (system : String) (launch : Except String (Option Nat)) (now : Nat)
    (reg : Registry) (appName : String) : Except String PyDict × Registry :=
  let inner : Except String (Option Nat) :=
    if system = "darwin" ∨ system = "windows" ∨ system = "linux" then launch
    else .error ("Unsupported operating system: " ++ system)
  match inner with
  | .error e => (.error ("Failed to open application " ++ appName ++ ": " ++ e), reg)
  | .ok pid =>
    let appId := appName ++ "_" ++ toString now
    (.ok { success? := some true, appId? := some appId, appName? := some appName,
           pidVal? := some pid, message? := some ("Successfully opened " ++ appName) },
     dictInsert reg appId ⟨appName, pid, now, "running"⟩)

/-- `DesktopManager.close_app`: raise for an unknown id; otherwise re-issue `quit`
via `interact_with_app`, set the entry's status to `"closed"` on success and return
the interaction result, or swallow the exception into a `success=False` dict. -/
def closeAppD (system : String) (run : String → Except String ProcResult)
    (reg : Registry) (appId : String) : Except String PyDict × Registry :=
  match lookupA reg appId with
  | none => (.error ("Application " ++ appId ++ " not found"), reg)
  | some info =>
    match interactWithAppD system run info.name "quit" with
    | .ok r => (.ok r, setStatus reg appId "closed")
    | .error e => (.ok { success? := some false, error? := some e }, reg)

/-! ## App registry (`DesktopManager.get_common_apps`) -/

/-- The `"darwin"` entry of the `common_apps` table (15 apps). -/
def darwinCommonApps : List AppInfo :=
  [⟨"Safari", "Web browser", "Safari"⟩,
   ⟨"Chrome", "Web browser", "Google Chrome"⟩,
   ⟨"Firefox", "Web browser", "Firefox"⟩,
   ⟨"Terminal", "Command line terminal", "Terminal"⟩,
   ⟨"Finder", "File manager", "Finder"⟩,
   ⟨"TextEdit", "Text editor", "TextEdit"⟩,
   ⟨"Notes", "Note-taking app", "Notes"⟩,
   ⟨"Calendar", "Calendar app", "Calendar"⟩,
   ⟨"Mail", "Email client", "Mail"⟩,
   ⟨"Messages", "Messaging app", "Messages"⟩,
   ⟨"Spotify", "Music streaming", "Spotify"⟩,
   ⟨"VSCode", "Code editor", "Visual Studio Code"⟩,
   ⟨"Xcode", "iOS development", "Xcode"⟩,
   ⟨"Photos", "Photo management", "Photos"⟩,
   ⟨"Preview", "PDF and image viewer", "Preview"⟩]

/-- The `"Windows"` entry of the `common_apps` table. -/
def windowsCommonApps : List AppInfo :=
  [⟨"Chrome", "Web browser", "chrome"⟩,
   ⟨"Firefox", "Web browser", "firefox"⟩,
   ⟨"Edge", "Web browser", "msedge"⟩,
   ⟨"Notepad", "Text editor", "notepad"⟩,
   ⟨"Word", "Word processor", "winword"⟩,
   ⟨"Excel", "Spreadsheet", "excel"⟩,
   ⟨"PowerPoint", "Presentation", "powerpnt"⟩,
   ⟨"VSCode", "Code editor", "code"⟩,
   ⟨"Calculator", "Calculator app", "calc"⟩,
   ⟨"Paint", "Image editor", "mspaint"⟩]

/-- The `"Linux"` entry of the `common_apps` table. -/
def linuxCommonApps : List AppInfo :=
  [⟨"Chrome", "Web browser", "google-chrome"⟩,
   ⟨"Firefox", "Web browser", "firefox"⟩,
   ⟨"Terminal", "Command line", "gnome-terminal"⟩,
   ⟨"VSCode", "Code editor", "code"⟩,
   ⟨"Gedit", "Text editor", "gedit"⟩,
   ⟨"LibreOffice", "Office suite", "libreoffice"⟩,
   ⟨"GIMP", "Image editor", "gimp"⟩,
   ⟨"Calculator", "Calculator", "gnome-calculator"⟩]

/-- `DesktopManager.get_common_apps`: `common_apps.get(self.system, [])`.  The
`"macOS"` table entry textually duplicates the `"darwin"` one in the source, and
the `"Windows"`/`"Linux"` keys never match the lower-cased `platform.system()`. -/
def getCommonApps (system : String) : List AppInfo :=
  if system = "darwin" then darwinCommonApps
  else if system = "macOS" then darwinCommonApps
  else if system = "Windows" then windowsCommonApps
  else if system = "Linux" then linuxCommonApps
  else []

/-! ## Intent parsing (`core.py`) -/

/-- The `app_patterns` list of `ComputerTalk._extract_app_name`. -/
def appPatterns : List String :=
  ["messages", "message", "mail", "email", "safari", "chrome", "firefox",
   "terminal", "finder", "notes", "calendar", "slack", "discord", "zoom",
   "notion", "figma", "vscode", "code", "xcode", "photos", "preview",
   "spotify", "music", "itunes", "textedit", "pages", "numbers", "keynote"]

/-- `ComputerTalk._extract_app_name`. -/
def extractAppName (command : String) : String :=
  let commandLower := pyLower command
  match appPatterns.find? (fun p => pyIn p commandLower) with
  | some p => if p = "vscode" ∨ p = "xcode" then pyTitle p else pyCapitalize p
  | none =>
    match pySplitWs command with
    | w :: _ => pyCapitalize w
    | [] => pyStrip command

/-- The recipient/body extraction of `_handle_open_and_message_command`
(lines 247–256): split once on `" that says "`, else once on `" saying "`,
strip, and strip surrounding quote characters from the body. -/
def parseRecipient (messagePart : String) : Except String (String × String) :=
  match pySplitFirst " that says " messagePart with
  | some (recipient, messageText) => .ok (pyStrip recipient, stripQuotes (pyStrip messageText))
  | none =>
    match pySplitFirst " saying " messagePart with
    | some (recipient, messageText) => .ok (pyStrip recipient, stripQuotes (pyStrip messageText))
    | none => .error ("❌ Could not parse message: " ++ messagePart)

/-- The shared continuation of `_handle_open_and_message_command` after the split
(lines 240–256): `len(parts) != 2` is a parse failure; otherwise strip the two
parts and extract recipient and body. -/
def parseParts (command : String) (parts : List String) :
    Except String (String × String × String) :=
  match parts with
  | [a, mp] =>
    match parseRecipient (pyStrip mp) with
    | .ok (recipient, messageText) => .ok (pyStrip a, recipient, messageText)
    | .error e => .error e
  | _ => .error ("❌ Could not parse message command: " ++ command)

/-- The parse portion of `_handle_open_and_message_command` (lines 233–256):
choose the separator by containment in the lower-cased command, split the original
command at EVERY occurrence, accept exactly two parts, then extract recipient and
body.  `Except.error` carries the parse-failure response string returned by the
code (the code returns these strings; nothing is raised). -/
def parseOpenAndMessage (command : String) : Except String (String × String × String) :=
  if pyIn " and send a message to " (pyLower command) then
    parseParts command (pySplitAll " and send a message to " command)
  else if pyIn " and send a message " (pyLower command) then
    parseParts command (pySplitAll " and send a message " command)
  else .error ("❌ Could not parse message command: " ++ command)

example :
    parseOpenAndMessage "messages and send a message to Avery that says hi there" =
      .ok ("messages", "Avery", "hi there") := rfl
example :
    parseOpenAndMessage "messages and send a message to Enya that says 'it works!'" =
      .ok ("messages", "Enya", "it works!") := rfl
example :
    parseOpenAndMessage "a and send a message to b and send a message to c that says hi" =
      .error
        "❌ Could not parse message command: a and send a message to b and send a message to c that says hi" :=
  rfl

/-! ## App-specific messenger (`core.py`) -/

/-- The AppleScript text built by `ComputerTalk._send_imessage` (an f-string with
the recipient and message interpolated, unescaped). -/
def imessageScript (recipient msg : String) : String :=
  "\n            tell application \"Messages\"\n                activate\n                delay 2\n                tell application \"System Events\"\n                    keystroke \"n\" using command down\n                    delay 1\n                    keystroke \"" ++
    recipient ++
    "\"\n                    delay 1\n                    keystroke return\n                    delay 1\n                    keystroke \"" ++
    msg ++
    "\"\n                    delay 1\n                    keystroke return\n                end tell\n            end tell\n            "

/-- `ComputerTalk._send_imessage`: run the script via `osascript`; any raised
exception is swallowed into a `success=False` dict. -/
def sendIMessage (run : String → Except String ProcResult) (recipient msg : String) : PyDict :=
  match run (imessageScript recipient msg) with
  | .error e => { success? := some false, message? := some ("Failed to send iMessage: " ++ e) }
  | .ok r =>
    { success? := some (r.returncode = 0),
      message? := some (if r.returncode = 0 then "iMessage sent" else "Failed: " ++ r.stderr),
      result? := none }

/-- `ComputerTalk._send_message_to_app`: channel dispatch on the lower-cased app
name; Slack/Discord are placeholder channels, everything else is unsupported.
Total — every branch returns a dict. -/
def sendMessageToApp (run : String → Except String ProcResult)
    (appName recipient msg : String) : PyDict :=
  if pyLower appName = "messages" ∨ pyLower appName = "message" then
    sendIMessage run recipient msg
  else if pyLower appName = "slack" then
    { success? := some false, message? := some "Slack integration not yet implemented" }
  else if pyLower appName = "discord" then
    { success? := some false, message? := some "Discord integration not yet implemented" }
  else
    { success? := some false, message? := some ("Message sending not supported for " ++ appName) }

/-! ## Command dispatcher (`core.py`) -/

/-- `ComputerTalk.interact_with_app` (the `is_running` guard has been passed):
wraps any exception from `DesktopManager.interact_with_app` as
`CommunicationError("Failed to interact with ...")`. -/
def coreInteractWithApp (system : String) (run : String → Except String ProcResult)
    (appName action : String) : Except String PyDict :=
  match interactWithAppD system run appName action with
  | .ok r => .ok r
  | .error e => .error ("Failed to interact with " ++ appName ++ ": " ++ e)

/-- The dispatch portion of `_handle_open_and_message_command` (lines 258–278):
open the app (returning immediately on a raised error or a falsy `success`), then
send the message and report full success or partial failure.  `openRes` / `sendRes`
are the outcomes of `self.open_app` / `self._send_message_to_app`. -/
def openAndMessageDispatch (openRes sendRes : Except String PyDict)
    (appName recipient messageText : String) : String :=
  match openRes with
  | .error e => "❌ Failed to open " ++ appName ++ ": " ++ e
  | .ok d =>
    if (d.success?.getD false) = false then
      "❌ Failed to open " ++ appName ++ ": " ++ d.message?.getD "Unknown error"
    else
      match sendRes with
      | .error e => "✅ Opened " ++ appName ++ ", but failed to send message: " ++ e
      | .ok mr =>
        if mr.success?.getD false then
          "✅ Opened " ++ appName ++ " and sent message to " ++ recipient ++ ": '" ++
            messageText ++ "'"
        else
          "✅ Opened " ++ appName ++ ", but failed to send message: " ++
            mr.message?.getD "Unknown error"

/-- The collaborators `_process_message` calls out to, as oracles: the task store,
the clock, and the component calls on `self`.  Instantiating a field with the
concrete embedded component (e.g. `interactApp := coreInteractWithApp "darwin" run`)
recovers the full source behavior. -/
structure Env where
  taskDescription : Option String
  timeString : String
  uptimeString : String
  openApp : String → Except String PyDict
  sendToApp : String → String → String → Except String PyDict
  listApps : Except String (List AppInfo)
  listRunningApps : Except String (List RunningAppInfo)
  interactApp : String → String → Except String PyDict

/-- `ComputerTalk._handle_open_and_message_command`: parse, then dispatch. -/
def handleOpenAndMessage (env : Env) (command : String) : String :=
  match parseOpenAndMessage command with
  | .error e => e
  | .ok (a, r, m) => openAndMessageDispatch (env.openApp a) (env.sendToApp a r m) a r m

/-- `ComputerTalk._handle_open_and_action_command`.  The `" and "` split is done on
the original-case command, so a command matched only case-insensitively falls into
the could-not-parse branch (`len(parts) != 2`). -/
def handleOpenAndAction (env : Env) (command : String) : String :=
  match pySplitFirst " and " command with
  | none => "❌ Could not parse action command: " ++ command
  | some (a, act) =>
    let appName := pyStrip a
    let action := pyStrip act
    match env.openApp appName with
    | .error e => "❌ Failed to open " ++ appName ++ ": " ++ e
    | .ok d =>
      if (d.success?.getD false) = false then
        "❌ Failed to open " ++ appName ++ ": " ++ d.message?.getD "Unknown error"
      else
        "✅ Opened " ++ appName ++ ". Action '" ++ action ++ "' would be executed here."

/-- `ComputerTalk._handle_open_command`: strip the `"open "` prefix and route to
the message / action / simple-open sub-handlers.  In the simple-open branch
`result['message']` would raise `KeyError` on a dict without the key; the handler
catches it into the failure string (`str(KeyError('message')) == "'message'"`). -/
def handleOpenCommand (env : Env) (message : String) : String :=
  let command := pyStrip (pyDrop 5 message)
  if pyIn " and send a message to " (pyLower command) ∨
      pyIn " and send a message " (pyLower command) then
    handleOpenAndMessage env command
  else if pyIn " and " (pyLower command) then
    handleOpenAndAction env command
  else
    let appName := extractAppName command
    match env.openApp appName with
    | .error e => "❌ Failed to open " ++ appName ++ ": " ++ e
    | .ok d =>
      match d.message? with
      | some m => "✅ " ++ m
      | none => "❌ Failed to open " ++ appName ++ ": 'message'"

/-- The no-task response of the `task` branch. -/
def noTaskMsg : String := "No task description set. Run 'computer-talk --interactive' to set one."

/-- `ComputerTalk._process_message`: the cascading prefix classifier, in source
order (`hello`, `time`, `status`, `task`, `clear task`, `open `, `list apps`,
`running apps`, `close `, echo fallback).  In the `close` branch, reading
`result['message']` raises `KeyError` when the dict has no such key; the branch
catches every exception into the `❌ Failed to close` string
(`str(KeyError('message')) == "'message'"`). -/
def processMessage (env : Env) (message : String) : String :=
  let ml := pyLower message
  if pyStartswith ml "hello" then "Hello! I received your message: " ++ message
  else if pyStartswith ml "time" then "Current time: " ++ env.timeString
  else if pyStartswith ml "status" then
    "Status: Running, uptime: " ++ env.uptimeString ++ " seconds"
  else if pyStartswith ml "task" then
    match env.taskDescription with
    | some td => if td = "" then noTaskMsg else "Your current task: " ++ td
    | none => noTaskMsg
  else if pyStartswith ml "clear task" then "✅ Task cleared. You can set a new one anytime."
  else if pyStartswith ml "open " then handleOpenCommand env message
  else if ml = "list apps" ∨ pyStartswith ml "list apps" then
    match env.listApps with
    | .ok apps =>
      if apps.isEmpty then "No apps available"
      else
        "Available apps:\n" ++
          String.intercalate "\n"
            ((apps.take 10).map (fun a => "• " ++ a.name ++ ": " ++ a.description)) ++
          "\n\n(Showing first 10 apps)"
    | .error e => "❌ Failed to list apps: " ++ e
  else if ml = "running apps" ∨ pyStartswith ml "running apps" then
    match env.listRunningApps with
    | .ok apps =>
      if apps.isEmpty then "No running apps detected"
      else
        "Running apps:\n" ++
          String.intercalate "\n" ((apps.take 10).map (fun a => "• " ++ a.name)) ++
          "\n\n(Showing first 10 apps)"
    | .error e => "❌ Failed to list running apps: " ++ e
  else if pyStartswith ml "close " then
    let appName := pyStrip (pyDrop 6 message)
    match env.interactApp appName "quit" with
    | .ok r =>
      match r.message? with
      | some m => "✅ " ++ m
      | none => "❌ Failed to close " ++ appName ++ ": 'message'"
    | .error e => "❌ Failed to close " ++ appName ++ ": " ++ e
  else "Echo: " ++ message

/-! ## Helper lemmas -/

theorem toList_mk (l : List Char) : (String.mk l).toList = l := rfl

theorem mk_toList (s : String) : String.mk s.toList = s := rfl

theorem toList_append (s t : String) : (s ++ t).toList = s.toList ++ t.toList :=
  String.data_append s t

theorem str_ne_of_toList_ne {s t : String} (h : s.toList ≠ t.toList) : s ≠ t :=
  fun he => h (congrArg String.toList he)

theorem isPrefixOfL_iff (p l : List Char) : isPrefixOfL p l = true ↔ p <+: l := by
  induction p generalizing l with
  | nil => simp [isPrefixOfL]
  | cons a as ih =>
    cases l with
    | nil => simp [isPrefixOfL]
    | cons b bs =>
      rw [isPrefixOfL, Bool.and_eq_true, ih, List.cons_prefix_cons, beq_iff_eq]

theorem isPrefixOfL_refl (l : List Char) : isPrefixOfL l l = true :=
  (isPrefixOfL_iff l l).mpr List.prefix_rfl

/-- A string cannot start with two prefix-incomparable strings at once. -/
theorem pyStartswith_false_of {s : String} (p q : String) (hp : pyStartswith s p = true)
    (h1 : isPrefixOfL q.toList p.toList = false) (h2 : isPrefixOfL p.toList q.toList = false) :
    pyStartswith s q = false := by
  cases hq : pyStartswith s q with
  | false => rfl
  | true =>
    exfalso
    have hp' := (isPrefixOfL_iff _ _).mp hp
    have hq' := (isPrefixOfL_iff _ _).mp hq
    rcases List.prefix_or_prefix_of_prefix hp' hq' with h | h
    · rw [(isPrefixOfL_iff _ _).mpr h] at h2; exact Bool.noConfusion h2
    · rw [(isPrefixOfL_iff _ _).mpr h] at h1; exact Bool.noConfusion h1

theorem ne_of_startswith_false {s p : String} (h : pyStartswith s p = false) : s ≠ p := by
  intro he
  subst he
  rw [pyStartswith, isPrefixOfL_refl] at h
  exact Bool.noConfusion h

theorem append_ne_of_head_ne (P : List Char) {X Y : List Char} {c d : Char}
    {tX tY : List Char} (hX : X = c :: tX) (hY : Y = d :: tY) (hcd : c ≠ d) :
    P ++ X ≠ P ++ Y := by
  subst hX hY
  intro h
  have h' := List.append_cancel_left h
  exact hcd (by injection h')

theorem dropWhile_head_false (f : Char → Bool) :
    ∀ (l : List Char) (c : Char), (l.dropWhile f).head? = some c → f c = false := by
  intro l
  induction l with
  | nil => intro c h; simp [List.dropWhile] at h
  | cons a t ih =>
    intro c h
    by_cases hf : f a = true
    · rw [List.dropWhile_cons, if_pos hf] at h; exact ih c h
    · rw [List.dropWhile_cons, if_neg hf] at h
      simp only [List.head?_cons, Option.some.injEq] at h
      subst h
      simpa using hf

theorem dropWhile_getLast (f : Char → Bool) :
    ∀ l : List Char, l.dropWhile f ≠ [] → (l.dropWhile f).getLast? = l.getLast? := by
  intro l
  induction l with
  | nil => intro h; simp [List.dropWhile] at h
  | cons a t ih =>
    intro h
    by_cases hf : f a = true
    · rw [List.dropWhile_cons, if_pos hf] at h ⊢
      have ht : t ≠ [] := by
        intro he; subst he; simp [List.dropWhile] at h
      rw [ih h]
      cases t with
      | nil => exact absurd rfl ht
      | cons b t' => rw [List.getLast?_cons_cons]
    · rw [List.dropWhile_cons, if_neg hf]

/-- If the head of `l` does not satisfy `f` (or `l` is empty), `dropWhile` is the
identity. -/
theorem dropWhile_eq_self_of_head (f : Char → Bool) (l : List Char)
    (h : ∀ c, l.head? = some c → f c = false) : l.dropWhile f = l := by
  cases l with
  | nil => rfl
  | cons a t => rw [List.dropWhile_cons, if_neg (by simp [h a rfl])]

theorem stripWithL_head (f : Char → Bool) (l : List Char) :
    ∀ c, (stripWithL f l).head? = some c → f c = false := by
  intro c h
  rw [stripWithL, List.head?_reverse] at h
  have hne : (l.dropWhile f).reverse.dropWhile f ≠ [] := by
    intro he; rw [he] at h; simp at h
  rw [dropWhile_getLast f _ hne, List.getLast?_reverse] at h
  exact dropWhile_head_false f l c h

theorem stripWithL_last (f : Char → Bool) (l : List Char) :
    ∀ c, (stripWithL f l).getLast? = some c → f c = false := by
  intro c h
  rw [stripWithL, List.getLast?_reverse] at h
  exact dropWhile_head_false f _ c h

/-- Stripping is idempotent: the output of `stripWithL` is a fixed point. -/
theorem stripWithL_idem (f : Char → Bool) (l : List Char) :
    stripWithL f (stripWithL f l) = stripWithL f l := by
  have h1 : (stripWithL f l).dropWhile f = stripWithL f l :=
    dropWhile_eq_self_of_head f _ (stripWithL_head f l)
  have h2 : (stripWithL f l).reverse.dropWhile f = (stripWithL f l).reverse :=
    dropWhile_eq_self_of_head f _ (by
      intro c hc
      rw [List.head?_reverse] at hc
      exact stripWithL_last f l c hc)
  calc stripWithL f (stripWithL f l)
      = (((stripWithL f l).dropWhile f).reverse.dropWhile f).reverse := rfl
    _ = stripWithL f l := by rw [h1, h2, List.reverse_reverse]

/-- `str.strip("'\"")` leaves its own output unchanged: the parsed message body
carries no surrounding quote characters. -/
theorem stripQuotes_idem (s : String) : stripQuotes (stripQuotes s) = stripQuotes s := by
  rw [stripQuotes, stripQuotes, toList_mk, stripWithL_idem]

/-! ## Claims -/

/-- C1: `_process_message` is total (the embedding returns exactly one response
string and never raises), and any input whose lower-casing matches none of the
recognized prefixes (`hello`, `time`, `status`, `task`, `clear task`, `open `,
`list apps`, `running apps`, `close `) yields the Echo response containing the
original input verbatim. -/
theorem c1_unmatched_input_echoes (env : Env) (message : String)
    (h1 : pyStartswith (pyLower message) "hello" = false)
    (h2 : pyStartswith (pyLower message) "time" = false)
    (h3 : pyStartswith (pyLower message) "status" = false)
    (h4 : pyStartswith (pyLower message) "task" = false)
    (h5 : pyStartswith (pyLower message) "clear task" = false)
    (h6 : pyStartswith (pyLower message) "open " = false)
    (h7 : pyStartswith (pyLower message) "list apps" = false)
    (h8 : pyStartswith (pyLower message) "running apps" = false)
    (h9 : pyStartswith (pyLower message) "close " = false) :
    processMessage env message = "Echo: " ++ message := by
  have e7 : pyLower message ≠ "list apps" := ne_of_startswith_false h7
  have e8 : pyLower message ≠ "running apps" := ne_of_startswith_false h8
  simp only [processMessage, h1, h2, h3, h4, h5, h6, h7, h8, h9, e7, e8,
    Bool.false_eq_true, if_false, or_false, if_neg (fun h => e7 h), if_neg (fun h => e8 h)]

/-- Witness for C1 at the concrete unmatched input `"what is the weather"`. -/
theorem c1_unmatched_input_echoes_witness :
    processMessage
        ⟨none, "", "", fun _ => .error "", fun _ _ _ => .error "", .ok [], .ok [],
          fun _ _ => .error ""⟩
        "what is the weather" = "Echo: what is the weather" :=
  c1_unmatched_input_echoes _ _ (by decide) (by decide) (by decide) (by decide) (by decide)
    (by decide) (by decide) (by decide) (by decide)

/-- C2: every input whose lower-casing begins with `"clear task"` produces the
task-cleared response — the `clear task` rule wins over the `task` rule, because
such an input never begins with `"task"` (so the earlier `task` branch, checked
first in source order, cannot fire). -/
theorem c2_clear_task_beats_task (env : Env) (message : String)
    (h : pyStartswith (pyLower message) "clear task" = true) :
    processMessage env message = "✅ Task cleared. You can set a new one anytime." := by
  have h1 : pyStartswith (pyLower message) "hello" = false :=
    pyStartswith_false_of "clear task" "hello" h (by decide) (by decide)
  have h2 : pyStartswith (pyLower message) "time" = false :=
    pyStartswith_false_of "clear task" "time" h (by decide) (by decide)
  have h3 : pyStartswith (pyLower message) "status" = false :=
    pyStartswith_false_of "clear task" "status" h (by decide) (by decide)
  have h4 : pyStartswith (pyLower message) "task" = false :=
    pyStartswith_false_of "clear task" "task" h (by decide) (by decide)
  simp only [processMessage, h1, h2, h3, h4, h, Bool.false_eq_true, if_false, if_true]

/-- Witness for C2 at the claim's concrete input `"clear task now"`. -/
theorem c2_clear_task_beats_task_witness :
    processMessage
        ⟨some "demo", "", "", fun _ => .error "", fun _ _ _ => .error "", .ok [], .ok [],
          fun _ _ => .error ""⟩
        "clear task now" = "✅ Task cleared. You can set a new one anytime." :=
  c2_clear_task_beats_task _ _ (by decide)

/-- Any successfully extracted message body is a fixed point of quote-stripping. -/
theorem parseRecipient_quotes {mp r m : String} (h : parseRecipient mp = .ok (r, m)) :
    stripQuotes m = m := by
  unfold parseRecipient at h
  split at h
  · injection h with h'
    have hm := congrArg Prod.snd h'
    simp only at hm
    rw [← hm, stripQuotes_idem]
  · split at h
    · injection h with h'
      have hm := congrArg Prod.snd h'
      simp only at hm
      rw [← hm, stripQuotes_idem]
    · simp at h

/-- The two-part continuation preserves the quote-stripped body. -/
theorem parseParts_quotes {cmd : String} {parts : List String} {a r m : String}
    (h : parseParts cmd parts = .ok (a, r, m)) : stripQuotes m = m := by
  unfold parseParts at h
  split at h
  · split at h
    · rename_i pr recipient messageText hpr
      injection h with h'
      have hm := congrArg (fun p => p.2.2) h'
      simp only at hm
      rw [← hm]
      exact parseRecipient_quotes hpr
    · simp at h
  · simp at h

/-- C3: the command of `"open messages and send a message to Avery that says hi
there"` (the text after `open `) parses to app_name `"messages"`, recipient
`"Avery"`, message_text `"hi there"`; and for every successfully parsed command the
message body is a fixed point of quote-stripping, i.e. surrounding quote characters
have been stripped from it. -/
theorem c3_round_trip_and_quote_stripping :
    (∀ cmd a r m, parseOpenAndMessage cmd = .ok (a, r, m) → stripQuotes m = m)
    ∧ parseOpenAndMessage
        (pyStrip (pyDrop 5 "open messages and send a message to Avery that says hi there")) =
      .ok ("messages", "Avery", "hi there") := by
  constructor
  · intro cmd a r m h
    unfold parseOpenAndMessage at h
    split at h
    · exact parseParts_quotes h
    · split at h
      · exact parseParts_quotes h
      · simp at h
  · rfl

/-- Witness for C3: the universal quote-stripping conjunct applied at the claim's
concrete round-trip input. -/
theorem c3_round_trip_and_quote_stripping_witness :
    stripQuotes "hi there" = "hi there" :=
  c3_round_trip_and_quote_stripping.1
    "messages and send a message to Avery that says hi there" "messages" "Avery" "hi there" rfl

/-- Follows claim C4's words, NOT the source: split ONCE on the first occurrence of
the separator, so additional later occurrences remain part of `message_part`.
Defined only for comparison with the source-derived `parseOpenAndMessage`. -/
def parseOpenAndMessageSplitOnce (command : String) :
    Except String (String × String × String) :=
  if pyIn " and send a message to " (pyLower command) then
    match pySplitFirst " and send a message to " command with
    | some (a, mp) => parseParts command [a, mp]
    | none => .error ("❌ Could not parse message command: " ++ command)
  else if pyIn " and send a message " (pyLower command) then
    match pySplitFirst " and send a message " command with
    | some (a, mp) => parseParts command [a, mp]
    | none => .error ("❌ Could not parse message command: " ++ command)
  else .error ("❌ Could not parse message command: " ++ command)

/-- C4 counterexample: on a command with TWO occurrences of the separator — for
both `" and send a message to "` and the `elif` separator `" and send a message "`
— the source splits at every occurrence (three parts) and reports a parse failure,
whereas the claimed split-once semantics would parse it successfully with the
later occurrence inside `message_part`. -/
theorem c4_counterexample :
    parseOpenAndMessage "a and send a message to b and send a message to c that says hi" =
      .error
        "❌ Could not parse message command: a and send a message to b and send a message to c that says hi"
    ∧ parseOpenAndMessageSplitOnce
        "a and send a message to b and send a message to c that says hi" =
      .ok ("a", "b and send a message to c", "hi")
    ∧ parseOpenAndMessage "a and send a message b and send a message c that says hi" =
      .error
        "❌ Could not parse message command: a and send a message b and send a message c that says hi"
    ∧ parseOpenAndMessageSplitOnce "a and send a message b and send a message c that says hi" =
      .ok ("a", "b and send a message c", "hi") :=
  ⟨rfl, rfl, rfl, rfl⟩

/-- C4 (amended): on BOTH separator branches — `" and send a message to "`, and
the `elif` branch `" and send a message "` taken when the first separator is
absent — the sub-parser splits on EVERY occurrence of the chosen separator and
accepts only the exactly-two-parts case, so additional occurrences yield the
`Could not parse message command` failure Echo; and whenever the accepted split's
`message_part` contains neither `" that says "` nor `" saying "`, the result is the
`Could not parse message` failure Echo reporting the unparsed text — never a raised
exception. -/
theorem c4_split_semantics :
    (∀ cmd a mp, pyIn " and send a message to " (pyLower cmd) = true →
      pySplitAll " and send a message to " cmd = [a, mp] →
      pySplitFirst " that says " (pyStrip mp) = none →
      pySplitFirst " saying " (pyStrip mp) = none →
      parseOpenAndMessage cmd = .error ("❌ Could not parse message: " ++ pyStrip mp))
    ∧ (∀ cmd, pyIn " and send a message to " (pyLower cmd) = true →
      (pySplitAll " and send a message to " cmd).length ≠ 2 →
      parseOpenAndMessage cmd = .error ("❌ Could not parse message command: " ++ cmd))
    ∧ (∀ cmd a mp, pyIn " and send a message to " (pyLower cmd) = false →
      pyIn " and send a message " (pyLower cmd) = true →
      pySplitAll " and send a message " cmd = [a, mp] →
      pySplitFirst " that says " (pyStrip mp) = none →
      pySplitFirst " saying " (pyStrip mp) = none →
      parseOpenAndMessage cmd = .error ("❌ Could not parse message: " ++ pyStrip mp))
    ∧ (∀ cmd, pyIn " and send a message to " (pyLower cmd) = false →
      pyIn " and send a message " (pyLower cmd) = true →
      (pySplitAll " and send a message " cmd).length ≠ 2 →
      parseOpenAndMessage cmd = .error ("❌ Could not parse message command: " ++ cmd)) := by
  refine ⟨?_, ?_, ?_, ?_⟩
  · intro cmd a mp h1 hsplit h3 h4
    unfold parseOpenAndMessage
    rw [if_pos h1, hsplit]
    unfold parseParts
    simp only [parseRecipient, h3, h4]
  · intro cmd h1 hlen
    unfold parseOpenAndMessage
    rw [if_pos h1]
    rcases hs : pySplitAll " and send a message to " cmd with _ | ⟨x, _ | ⟨y, _ | ⟨z, t⟩⟩⟩
    · rfl
    · rfl
    · rw [hs] at hlen; simp at hlen
    · rfl
  · intro cmd a mp h0 h1 hsplit h3 h4
    unfold parseOpenAndMessage
    rw [if_neg (by simp [h0]), if_pos h1, hsplit]
    unfold parseParts
    simp only [parseRecipient, h3, h4]
  · intro cmd h0 h1 hlen
    unfold parseOpenAndMessage
    rw [if_neg (by simp [h0]), if_pos h1]
    rcases hs : pySplitAll " and send a message " cmd with _ | ⟨x, _ | ⟨y, _ | ⟨z, t⟩⟩⟩
    · rfl
    · rfl
    · rw [hs] at hlen; simp at hlen
    · rfl

/-- Witness for C4's amended theorem, exercising both separator branches: a
two-part split whose `message_part` contains neither body separator yields the
parse-failure Echo, on the `" and send a message to "` branch and on the
`" and send a message "` `elif` branch. -/
theorem c4_split_semantics_witness :
    parseOpenAndMessage "x and send a message to y" = .error "❌ Could not parse message: y"
    ∧ parseOpenAndMessage "slack and send a message bob" =
        .error "❌ Could not parse message: bob" :=
  ⟨c4_split_semantics.1 "x and send a message to y" "x" "y" (by decide) (by decide) rfl rfl,
   c4_split_semantics.2.2.1 "slack and send a message bob" "slack" "bob" (by decide) (by decide)
     (by decide) rfl rfl⟩

/-- Two char lists with distinct heads are distinct, whatever follows. -/
theorem ne_of_head_ne {c d : Char} {tA tB X Y : List Char} (hcd : c ≠ d) :
    (c :: tA) ++ X ≠ (d :: tB) ++ Y := by
  intro h
  rw [List.cons_append, List.cons_append] at h
  exact hcd (by injection h)

/-- Cancelling two shared prefixes, lists diverging at the next character differ. -/
theorem ne_of_mid_head_ne (P Q : List Char) {c d : Char} {tA tB X Y : List Char}
    (hcd : c ≠ d) : P ++ (Q ++ ((c :: tA) ++ X)) ≠ P ++ (Q ++ ((d :: tB) ++ Y)) := by
  intro h
  have h1 := List.append_cancel_left h
  have h2 := List.append_cancel_left h1
  rw [List.cons_append, List.cons_append] at h2
  exact hcd (by injection h2)

/-- C5: the OpenAndMessage dispatch returns the open-failure template immediately
when opening fails (raised error or falsy `success`), independently of the
messenger outcome (the send step is never attempted); otherwise it returns the
full-success or partial-failure template; the three templates are pairwise
distinct for a fixed dispatch, and the partial-failure response still states that
the app was opened. -/
theorem c5_dispatch_outcomes
    (appName recipient messageText e err : String) (s₁ s₂ : Except String PyDict)
    (d : PyDict) (hd : d.success?.getD false = true)
    (dF : PyDict) (hdF : dF.success?.getD false = false) (mr : PyDict) :
    openAndMessageDispatch (.error e) s₁ appName recipient messageText =
      "❌ Failed to open " ++ appName ++ ": " ++ e
    ∧ openAndMessageDispatch (.error e) s₁ appName recipient messageText =
        openAndMessageDispatch (.error e) s₂ appName recipient messageText
    ∧ openAndMessageDispatch (.ok dF) s₁ appName recipient messageText =
        "❌ Failed to open " ++ appName ++ ": " ++ dF.message?.getD "Unknown error"
    ∧ openAndMessageDispatch (.ok dF) s₁ appName recipient messageText =
        openAndMessageDispatch (.ok dF) s₂ appName recipient messageText
    ∧ (mr.success?.getD false = true →
        openAndMessageDispatch (.ok d) (.ok mr) appName recipient messageText =
          "✅ Opened " ++ appName ++ " and sent message to " ++ recipient ++ ": '" ++
            messageText ++ "'")
    ∧ (mr.success?.getD false = false →
        openAndMessageDispatch (.ok d) (.ok mr) appName recipient messageText =
          "✅ Opened " ++ appName ++ ", but failed to send message: " ++
            mr.message?.getD "Unknown error")
    ∧ openAndMessageDispatch (.ok d) (.error err) appName recipient messageText =
        "✅ Opened " ++ appName ++ ", but failed to send message: " ++ err
    ∧ ("✅ Opened " ++ appName ++ " and sent message to " ++ recipient ++ ": '" ++
          messageText ++ "'" ≠
        "✅ Opened " ++ appName ++ ", but failed to send message: " ++ err)
    ∧ ("✅ Opened " ++ appName ++ " and sent message to " ++ recipient ++ ": '" ++
          messageText ++ "'" ≠
        "❌ Failed to open " ++ appName ++ ": " ++ e)
    ∧ ("✅ Opened " ++ appName ++ ", but failed to send message: " ++ err ≠
        "❌ Failed to open " ++ appName ++ ": " ++ e)
    ∧ (∃ pre post, "✅ Opened " ++ appName ++ ", but failed to send message: " ++ err =
        pre ++ ("Opened " ++ appName) ++ post) := by
  refine ⟨rfl, rfl, ?_, ?_, ?_, ?_, ?_, ?_, ?_, ?_, ?_⟩
  · simp only [openAndMessageDispatch, hdF, if_true]
  · simp only [openAndMessageDispatch, hdF, if_true]
  · intro hs
    simp only [openAndMessageDispatch, hd, hs]
    rfl
  · intro hs
    simp only [openAndMessageDispatch, hd, hs]
    rfl
  · simp only [openAndMessageDispatch, hd]
    rfl
  · apply str_ne_of_toList_ne
    simp only [toList_append, List.append_assoc]
    rw [(by decide : " and sent message to ".toList = ' ' :: "and sent message to ".toList),
      (by decide :
        ", but failed to send message: ".toList = ',' :: " but failed to send message: ".toList)]
    exact ne_of_mid_head_ne _ _ (by decide)
  · apply str_ne_of_toList_ne
    simp only [toList_append, List.append_assoc]
    rw [(by decide : "✅ Opened ".toList = '✅' :: " Opened ".toList),
      (by decide : "❌ Failed to open ".toList = '❌' :: " Failed to open ".toList)]
    exact ne_of_head_ne (by decide)
  · apply str_ne_of_toList_ne
    simp only [toList_append, List.append_assoc]
    rw [(by decide : "✅ Opened ".toList = '✅' :: " Opened ".toList),
      (by decide : "❌ Failed to open ".toList = '❌' :: " Failed to open ".toList)]
    exact ne_of_head_ne (by decide)
  · refine ⟨"✅ ", ", but failed to send message: " ++ err, ?_⟩
    apply congrArg String.mk
    show ("✅ Opened " ++ appName ++ ", but failed to send message: " ++ err).toList =
      ("✅ " ++ ("Opened " ++ appName) ++ (", but failed to send message: " ++ err)).toList
    simp only [toList_append, List.append_assoc]
    rfl

/-- Witness for C5 at a concrete failed open. -/
theorem c5_dispatch_outcomes_witness :
    openAndMessageDispatch (.error "boom") (.ok {}) "Messages" "Avery" "hi" =
      "❌ Failed to open Messages: boom" :=
  (c5_dispatch_outcomes "Messages" "Avery" "hi" "boom" "err" (.ok {}) (.ok {})
    { success? := some true } rfl { success? := some false } rfl {}).1

set_option maxRecDepth 4000 in
/-- C6: over the darwin registry of 15 available apps, the rendered ListApps
response contains exactly the first 10 entries plus the explicit truncation note;
an empty registry yields the distinct `"No apps available"` message instead of an
empty list rendering. -/
theorem c6_list_apps_truncation (td : Option String) (ts us : String)
    (o : String → Except String PyDict) (sd : String → String → String → Except String PyDict)
    (lr : Except String (List RunningAppInfo)) (ia : String → String → Except String PyDict) :
    (getCommonApps "darwin").length = 15
    ∧ processMessage ⟨td, ts, us, o, sd, .ok (getCommonApps "darwin"), lr, ia⟩ "list apps" =
        "Available apps:\n• Safari: Web browser\n• Chrome: Web browser\n• Firefox: Web browser\n• Terminal: Command line terminal\n• Finder: File manager\n• TextEdit: Text editor\n• Notes: Note-taking app\n• Calendar: Calendar app\n• Mail: Email client\n• Messages: Messaging app\n\n(Showing first 10 apps)"
    ∧ processMessage ⟨td, ts, us, o, sd, .ok (getCommonApps "darwin"), lr, ia⟩ "list apps" =
        "Available apps:\n" ++
          String.intercalate "\n"
            (((getCommonApps "darwin").take 10).map (fun a => "• " ++ a.name ++ ": " ++ a.description)) ++
          "\n\n(Showing first 10 apps)"
    ∧ processMessage ⟨td, ts, us, o, sd, .ok [], lr, ia⟩ "list apps" = "No apps available" := by
  exact ⟨rfl, rfl, rfl, rfl⟩

/-- C7 counterexample: `control("Nonexistent", "dance")` on the macOS adapter does
NOT return a failure ActionResult — the unknown-action `ComputerTalkError` is
re-raised out of `interact_with_app` as a `CommunicationError`. -/
theorem c7_counterexample :
    interactWithAppD "darwin" (fun _ => .ok ⟨0, "", ""⟩) "Nonexistent" "dance" =
      .error "Failed to interact with Nonexistent: Unknown action: dance" := rfl

/-- C7 (amended): for an action outside {activate, close, quit, minimize,
maximize}, the macOS adapter raises a wrapped unknown-action error (never returns
an ActionResult), while the Windows and Linux adapters return a best-effort
acknowledgment ActionResult with `success=True` echoing the action string. -/
theorem c7_unknown_action (run : String → Except String ProcResult) (appName action : String)
    (h1 : action ≠ "activate") (h2 : action ≠ "close") (h3 : action ≠ "quit")
    (h4 : action ≠ "minimize") (h5 : action ≠ "maximize") :
    interactWithAppD "darwin" run appName action =
      .error ("Failed to interact with " ++ appName ++ ": " ++ ("Unknown action: " ++ action))
    ∧ interactWithAppD "windows" run appName action =
        .ok { success? := some true, action? := some action,
              message? := some ("Action " ++ action ++ " on " ++ appName ++ " (Windows)") }
    ∧ interactWithAppD "linux" run appName action =
        .ok { success? := some true, action? := some action,
              message? := some ("Action " ++ action ++ " on " ++ appName ++ " (Linux)") } := by
  have hmac : interactMacosApp run appName action = .error ("Unknown action: " ++ action) := by
    unfold interactMacosApp macosActionScript
    rw [if_neg h1, if_neg h2, if_neg h3, if_neg h4, if_neg h5]
  refine ⟨?_, ?_, ?_⟩
  · unfold interactWithAppD
    rw [if_pos rfl, hmac]
  · unfold interactWithAppD
    rw [if_neg (by decide), if_pos rfl]
    rfl
  · unfold interactWithAppD
    rw [if_neg (by decide), if_neg (by decide), if_pos rfl]
    rfl

/-- Witness for C7's amended theorem: the Windows acknowledgment at
`("Nonexistent", "dance")`. -/
theorem c7_unknown_action_witness :
    interactWithAppD "windows" (fun _ => .ok ⟨0, "", ""⟩) "Nonexistent" "dance" =
      .ok { success? := some true, action? := some "dance",
            message? := some "Action dance on Nonexistent (Windows)" } :=
  (c7_unknown_action (fun _ => .ok ⟨0, "", ""⟩) "Nonexistent" "dance" (by decide) (by decide)
    (by decide) (by decide) (by decide)).2.1

/-- Re-assigning status `"closed"` to entries that are already closed leaves the
registry unchanged. -/
theorem setStatus_id_of_closed (reg : Registry) (appId : String)
    (hall : ∀ p ∈ reg, p.1 = appId → p.2.status = "closed") :
    setStatus reg appId "closed" = reg := by
  induction reg with
  | nil => rfl
  | cons p t ih =>
    obtain ⟨k, v⟩ := p
    have ht : setStatus t appId "closed" = t :=
      ih (fun q hq hqk => hall q (List.mem_cons_of_mem _ hq) hqk)
    show (if k = appId then (k, { v with status := "closed" }) else (k, v))
        :: setStatus t appId "closed" = (k, v) :: t
    rw [ht]
    by_cases hk : k = appId
    · have hst : v.status = "closed" := hall (k, v) (List.mem_cons_self _ _) hk
      rw [if_pos hk]
      obtain ⟨n, pd, st, s⟩ := v
      have hs' : s = "closed" := hst
      subst hs'
      rfl
    · rw [if_neg hk]

/-- `setStatus` updates exactly the looked-up entry's status. -/
theorem lookupA_setStatus (reg : Registry) (k st : String) :
    lookupA (setStatus reg k st) k = (lookupA reg k).map (fun v => { v with status := st }) := by
  induction reg with
  | nil => rfl
  | cons p t ih =>
    obtain ⟨k', v⟩ := p
    show lookupA ((if k' = k then (k', { v with status := st }) else (k', v))
        :: setStatus t k st) k = _
    by_cases hk : k' = k
    · rw [if_pos hk]
      show (if k' = k then some { v with status := st } else lookupA (setStatus t k st) k)
          = ((if k' = k then some v else lookupA t k).map fun v => { v with status := st })
      rw [if_pos hk, if_pos hk]
      rfl
    · rw [if_neg hk]
      show (if k' = k then some v else lookupA (setStatus t k st) k)
          = ((if k' = k then some v else lookupA t k).map fun v => { v with status := st })
      rw [if_neg hk, if_neg hk, ih]

/-- C8 counterexample: a repeated `close` on an id whose TrackedApp is already
`"closed"` does NOT return a "not found"/"already closed" failure — the entry is
still in the registry, `quit` is re-issued, and (when it succeeds) the adapter's
success result is returned. -/
theorem c8_counterexample :
    closeAppD "darwin" (fun _ => .ok ⟨0, "", ""⟩)
        [("Safari_100", ⟨"Safari", none, 100, "closed"⟩)] "Safari_100" =
      (.ok { success? := some true, action? := some "quit", result? := some "" },
       [("Safari_100", ⟨"Safari", none, 100, "closed"⟩)]) := rfl

/-- C8 (amended): only an id absent from the registry produces the not-found
failure (with the registry unchanged); for an id whose entry — and any entry under
that key — is already `"closed"`, the repeated close leaves the registry
observably unchanged (the status is re-assigned the value it already has), while
the re-issued quit's result is returned. -/
theorem c8_close_already_closed (system : String) (run : String → Except String ProcResult)
    (reg : Registry) (appId : String) :
    (lookupA reg appId = none →
      closeAppD system run reg appId = (.error ("Application " ++ appId ++ " not found"), reg))
    ∧ (∀ info, lookupA reg appId = some info →
        (∀ p ∈ reg, p.1 = appId → p.2.status = "closed") →
        (closeAppD system run reg appId).2 = reg) := by
  constructor
  · intro h
    unfold closeAppD
    rw [h]
  · intro info hl hall
    unfold closeAppD
    rw [hl]
    show (match interactWithAppD system run info.name "quit" with
          | Except.ok r => (Except.ok r, setStatus reg appId "closed")
          | Except.error e =>
            (Except.ok { success? := some false, error? := some e }, reg)).2 = reg
    cases interactWithAppD system run info.name "quit" with
    | ok r => exact setStatus_id_of_closed reg appId hall
    | error e => rfl

/-- Witness for C8's amended theorem: the registry stays unchanged on a repeated
close of an already-closed entry, here with a failing quit oracle. -/
theorem c8_close_already_closed_witness :
    (closeAppD "darwin" (fun _ => .ok ⟨1, "", "oops"⟩)
        [("Safari_100", ⟨"Safari", none, 100, "closed"⟩)] "Safari_100").2 =
      [("Safari_100", ⟨"Safari", none, 100, "closed"⟩)] :=
  (c8_close_already_closed "darwin" (fun _ => .ok ⟨1, "", "oops"⟩)
      [("Safari_100", ⟨"Safari", none, 100, "closed"⟩)] "Safari_100").2
    ⟨"Safari", none, 100, "closed"⟩ rfl (by decide)

/-- C9 counterexample: two successful launches of the same app within the same
clock second both succeed with the SAME app_id `"Safari_100"`, and the second
overwrites the first's registry entry — after both launches the registry holds a
single entry, not two. -/
theorem c9_counterexample :
    (openApplicationD "darwin" (.ok none) 100 [] "Safari").1 =
      .ok { success? := some true, appId? := some "Safari_100", appName? := some "Safari",
            pidVal? := some none, message? := some "Successfully opened Safari" }
    ∧ (openApplicationD "darwin" (.ok none) 100
        (openApplicationD "darwin" (.ok none) 100 [] "Safari").2 "Safari").1 =
      .ok { success? := some true, appId? := some "Safari_100", appName? := some "Safari",
            pidVal? := some none, message? := some "Successfully opened Safari" }
    ∧ (openApplicationD "darwin" (.ok none) 100
        (openApplicationD "darwin" (.ok none) 100 [] "Safari").2 "Safari").2 =
      [("Safari_100", ⟨"Safari", none, 100, "running"⟩)] :=
  ⟨rfl, rfl, rfl⟩

/-- C9 (amended): every successful launch returns a success dict carrying app_id
`appName_timestamp` and writes the `"running"` TrackedApp under that key; when the
key is not already present this appends exactly one new entry (no existing entry
is touched) — distinctness therefore holds only for distinct (name, second) pairs,
a same-name same-second relaunch reuses the key (see the counterexample); and a
successful quit issued through `close_app` transitions the entry's status to
`"closed"`. -/
theorem c9_registry_lifecycle (system : String)
    (hs : system = "darwin" ∨ system = "windows" ∨ system = "linux")
    (pid : Option Nat) (now : Nat) (reg : Registry) (appName : String)
    (run : String → Except String ProcResult) :
    (openApplicationD system (.ok pid) now reg appName).1 =
      .ok { success? := some true, appId? := some (appName ++ "_" ++ toString now),
            appName? := some appName, pidVal? := some pid,
            message? := some ("Successfully opened " ++ appName) }
    ∧ (lookupA reg (appName ++ "_" ++ toString now) = none →
        (openApplicationD system (.ok pid) now reg appName).2 =
          reg ++ [(appName ++ "_" ++ toString now, ⟨appName, pid, now, "running"⟩)])
    ∧ (∀ (reg' : Registry) (appId : String) (info : TrackedApp) (r : PyDict),
        lookupA reg' appId = some info →
        interactWithAppD system run info.name "quit" = .ok r →
        lookupA (closeAppD system run reg' appId).2 appId =
          some { info with status := "closed" }) := by
  refine ⟨?_, ?_, ?_⟩
  · unfold openApplicationD
    rw [if_pos hs]
  · intro hfresh
    unfold openApplicationD
    rw [if_pos hs]
    show dictInsert reg (appName ++ "_" ++ toString now) ⟨appName, pid, now, "running"⟩ = _
    unfold dictInsert
    rw [hfresh]
    rfl
  · intro reg' appId info r hl hq
    unfold closeAppD
    rw [hl]
    show lookupA
        ((match interactWithAppD system run info.name "quit" with
          | Except.ok r => (Except.ok r, setStatus reg' appId "closed")
          | Except.error e =>
            (Except.ok { success? := some false, error? := some e }, reg')).2) appId = _
    rw [hq]
    show lookupA (setStatus reg' appId "closed") appId = _
    rw [lookupA_setStatus, hl]
    rfl

/-- Witness for C9's amended theorem: a fresh launch appends one entry. -/
theorem c9_registry_lifecycle_witness :
    (openApplicationD "windows" (.ok (some 7)) 5 [] "Word").2 =
      [("Word_5", ⟨"Word", some 7, 5, "running"⟩)] :=
  (c9_registry_lifecycle "windows" (Or.inr (Or.inl rfl)) (some 7) 5 [] "Word"
      (fun _ => .ok ⟨0, "", ""⟩)).2.1 rfl

theorem mk_append (l₁ l₂ : List Char) : String.mk (l₁ ++ l₂) = String.mk l₁ ++ String.mk l₂ :=
  rfl

theorem pyLower_append (a b : String) : pyLower (a ++ b) = pyLower a ++ pyLower b := by
  rw [pyLower, pyLower, pyLower, toList_append, List.map_append, mk_append]

theorem pyDrop_append_len (s t : String) : pyDrop s.toList.length (s ++ t) = t := by
  rw [pyDrop, toList_append, List.drop_left, mk_toList]

/-- Every `"close " ++ x` input reaches the `close` branch: `quit` is issued for
the stripped remainder and the response is rendered from the interaction result —
`✅` with the dict's `message` value, `❌` on a missing `message` key (`KeyError`)
or a raised interaction error. -/
theorem processMessage_close (env : Env) (x : String) :
    processMessage env ("close " ++ x) =
      match env.interactApp (pyStrip x) "quit" with
      | .ok r =>
        match r.message? with
        | some m => "✅ " ++ m
        | none => "❌ Failed to close " ++ pyStrip x ++ ": 'message'"
      | .error e => "❌ Failed to close " ++ pyStrip x ++ ": " ++ e := by
  have hml : pyLower ("close " ++ x) = "close " ++ pyLower x := by
    rw [pyLower_append, (by decide : pyLower "close " = "close ")]
  have hstart : pyStartswith (pyLower ("close " ++ x)) "close " = true := by
    rw [hml, pyStartswith, toList_append]
    exact (isPrefixOfL_iff _ _).mpr (List.prefix_append _ _)
  have h1 : pyStartswith (pyLower ("close " ++ x)) "hello" = false :=
    pyStartswith_false_of "close " "hello" hstart (by decide) (by decide)
  have h2 : pyStartswith (pyLower ("close " ++ x)) "time" = false :=
    pyStartswith_false_of "close " "time" hstart (by decide) (by decide)
  have h3 : pyStartswith (pyLower ("close " ++ x)) "status" = false :=
    pyStartswith_false_of "close " "status" hstart (by decide) (by decide)
  have h4 : pyStartswith (pyLower ("close " ++ x)) "task" = false :=
    pyStartswith_false_of "close " "task" hstart (by decide) (by decide)
  have h5 : pyStartswith (pyLower ("close " ++ x)) "clear task" = false :=
    pyStartswith_false_of "close " "clear task" hstart (by decide) (by decide)
  have h6 : pyStartswith (pyLower ("close " ++ x)) "open " = false :=
    pyStartswith_false_of "close " "open " hstart (by decide) (by decide)
  have h7 : pyStartswith (pyLower ("close " ++ x)) "list apps" = false :=
    pyStartswith_false_of "close " "list apps" hstart (by decide) (by decide)
  have h8 : pyStartswith (pyLower ("close " ++ x)) "running apps" = false :=
    pyStartswith_false_of "close " "running apps" hstart (by decide) (by decide)
  have e7 : pyLower ("close " ++ x) ≠ "list apps" := ne_of_startswith_false h7
  have e8 : pyLower ("close " ++ x) ≠ "running apps" := ne_of_startswith_false h8
  have hdrop : pyDrop 6 ("close " ++ x) = x := by
    rw [(by decide : (6 : Nat) = "close ".toList.length), pyDrop_append_len]
  simp only [processMessage, h1, h2, h3, h4, h5, h6, h7, h8, hstart, e7, e8, hdrop,
    Bool.false_eq_true, if_false, or_false, if_true]

/-- C10: on macOS, a `"close X"` command whose `quit` action succeeds (exit code 0)
renders the failure-glyph template: the adapter's success dict has keys
`{success, action, result}` but no `message`, so the close handler's
`result['message']` raises `KeyError('message')`, caught into the `❌` branch. -/
theorem c10_macos_close_success_shows_failure (td : Option String) (ts us : String)
    (o : String → Except String PyDict) (sd : String → String → String → Except String PyDict)
    (la : Except String (List AppInfo)) (lr : Except String (List RunningAppInfo))
    (run : String → Except String ProcResult) (x out errS : String)
    (hrun : run ("tell application \"" ++ pyStrip x ++ "\" to quit") = .ok ⟨0, out, errS⟩) :
    processMessage ⟨td, ts, us, o, sd, la, lr, coreInteractWithApp "darwin" run⟩
        ("close " ++ x) =
      "❌ Failed to close " ++ pyStrip x ++ ": 'message'" := by
  have hm : interactMacosApp run (pyStrip x) "quit" =
      .ok { success? := some true, action? := some "quit", result? := some (pyStrip out) } := by
    unfold interactMacosApp macosActionScript
    rw [if_neg (by decide : ¬("quit" = "activate")), if_neg (by decide : ¬("quit" = "close")),
      if_pos rfl]
    dsimp only
    rw [hrun]
    rfl
  have hd : interactWithAppD "darwin" run (pyStrip x) "quit" =
      .ok { success? := some true, action? := some "quit", result? := some (pyStrip out) } := by
    unfold interactWithAppD
    rw [if_pos rfl, hm]
  have hc : coreInteractWithApp "darwin" run (pyStrip x) "quit" =
      .ok { success? := some true, action? := some "quit", result? := some (pyStrip out) } := by
    unfold coreInteractWithApp
    rw [hd]
  rw [processMessage_close]
  show (match coreInteractWithApp "darwin" run (pyStrip x) "quit" with
        | Except.ok r =>
          match r.message? with
          | some m => "✅ " ++ m
          | none => "❌ Failed to close " ++ pyStrip x ++ ": 'message'"
        | Except.error e => "❌ Failed to close " ++ pyStrip x ++ ": " ++ e) = _
  rw [hc]

/-- Witness for C10: closing `"Safari"` with a successful quit renders the
failure template. -/
theorem c10_macos_close_success_shows_failure_witness :
    processMessage
        ⟨none, "", "", fun _ => .error "", fun _ _ _ => .error "", .ok [], .ok [],
          coreInteractWithApp "darwin" (fun _ => .ok ⟨0, "", ""⟩)⟩
        "close Safari" = "❌ Failed to close Safari: 'message'" :=
  c10_macos_close_success_shows_failure none "" "" (fun _ => .error "")
    (fun _ _ _ => .error "") (.ok []) (.ok []) (fun _ => .ok ⟨0, "", ""⟩) "Safari" "" "" rfl

end ComputerTalk
